import Mathlib

/-!
Verification of `src/swarm/client_factory.py`.

The file shallowly embeds the client factory: the process environment is a
function from variable names to optional string values, Python optional
string arguments are `Option String`, Python truthiness of such values and
the `a or b` fallback idiom are modelled explicitly, and each resolver
class constructor becomes a function returning `Except String _` when the
source can raise `ValueError` (a pure structure when it cannot).
-/

namespace Swarm

/-- Process environment: `os.getenv v` yields `none` when `v` is unset,
`some s` (possibly the empty string) when it is set to `s`. -/
def Env : Type := String → Option String

/-- Python truthiness of an optional string: `None` and `""` are falsy,
every other string is truthy. -/
def pyTruthy : Option String → Bool
  | none => false
  | some s => s != ""

/-- Python `a or b` on optional strings: yields `a` when `a` is truthy,
otherwise `b`. -/
def pyOr (a b : Option String) : Option String :=
  if pyTruthy a then a else b

/-- Python `s.lower()` on the ASCII range, as used for registry keys:
maps each character through `Char.toLower`. -/
def pyLower (s : String) : String :=
  ⟨s.data.map Char.toLower⟩

/-- Resolver state for the primary commercial variant (`OpenAIClient`):
fields as assigned by `OpenAIClient.__init__`. -/
structure OpenAIClient where
  api_key : Option String
  base_url : Option String
  organization : Option String
  project : Option String
deriving DecidableEq, Repr

/-- Constructor `OpenAIClient.__init__(api_key, base_url, organization,
project)`: credential falls back to `OPENAI_API_KEY` and is validated
truthy, endpoint falls back to a fixed URL, organization and project fall
back to their environment variables. -/
def OpenAIClient.init (env : Env) (api_key base_url organization project : Option String) :
    Except String OpenAIClient :=
  let k := pyOr api_key (env "OPENAI_API_KEY")
  if pyTruthy k then
    Except.ok
      { api_key := k
        base_url := pyOr base_url (some "https://api.openai.com/v1")
        organization := pyOr organization (env "OPENAI_ORG_ID")
        project := pyOr project (env "OPENAI_PROJECT_ID") }
  else
    Except.error "API key must be set in the environment variable 'OPENAI_API_KEY'."

/-- Resolver state for the enterprise-cloud variant (`AzureOpenAIClient`). -/
structure AzureOpenAIClient where
  api_key : Option String
  base_url : Option String
  api_version : Option String
  azure_deployment : Option String
deriving DecidableEq, Repr

/-- Constructor `AzureOpenAIClient.__init__`: every field falls back to its
environment variable and nothing is validated, so construction is total. -/
def AzureOpenAIClient.init (env : Env)
    (api_key base_url api_version azure_deployment : Option String) : AzureOpenAIClient :=
  { api_key := pyOr api_key (env "AZURE_OPENAI_API_KEY")
    base_url := pyOr base_url (env "AZURE_OPENAI_ENDPOINT")
    api_version := pyOr api_version (env "OPENAI_API_VERSION")
    azure_deployment := pyOr azure_deployment (env "AZURE_OPENAI_DEPLOYMENT_NAME") }

/-- Resolver state for the local-server variant (`OllamaClient`). -/
structure OllamaClient where
  api_key : Option String
  base_url : Option String
deriving DecidableEq, Repr

/-- Constructor `OllamaClient.__init__`: credential falls back to the fixed
placeholder `"ollama"`, endpoint falls back to `OLLAMA_ENDPOINT_URL`;
construction is total. -/
def OllamaClient.init (env : Env) (api_key base_url : Option String) : OllamaClient :=
  { api_key := pyOr api_key (some "ollama")
    base_url := pyOr base_url (env "OLLAMA_ENDPOINT_URL") }

/-- Resolver state for the hosted-hub variant (`HuggingFaceClient`). -/
structure HuggingFaceClient where
  api_key : Option String
  base_url : Option String
deriving DecidableEq, Repr

/-- Constructor `HuggingFaceClient.__init__`: credential falls back to
`HF_API_TOKEN` and endpoint to `HF_ENDPOINT_URL`; both are validated truthy
in that order, each raising a dedicated `ValueError` otherwise. -/
def HuggingFaceClient.init (env : Env) (api_key base_url : Option String) :
    Except String HuggingFaceClient :=
  let k := pyOr api_key (env "HF_API_TOKEN")
  if pyTruthy k then
    let u := pyOr base_url (env "HF_ENDPOINT_URL")
    if pyTruthy u then
      Except.ok { api_key := k, base_url := u }
    else
      Except.error "Endpoint URL must be provided either as a parameter or set in the environment variable 'HF_ENDPOINT_URL'."
  else
    Except.error "API key must be provided either as a parameter or set in the environment variable 'HF_API_TOKEN'."

/-- Opaque client handle returned by `create()`: records which underlying
library constructor was called and the fields forwarded to it. -/
inductive Handle where
  | openAI (api_key base_url organization project : Option String)
  | azureAI (api_key azure_endpoint api_version azure_deployment : Option String)
  | custom (id : Nat) (api_key base_url : Option String)
deriving DecidableEq, Repr

/-- Method `OpenAIClient.create`: forwards the four resolved fields to the
`OpenAI` constructor. -/
def OpenAIClient.create (c : OpenAIClient) : Handle :=
  Handle.openAI c.api_key c.base_url c.organization c.project

/-- Method `AzureOpenAIClient.create`: forwards the four resolved fields to
the `AzureOpenAI` constructor. -/
def AzureOpenAIClient.create (c : AzureOpenAIClient) : Handle :=
  Handle.azureAI c.api_key c.base_url c.api_version c.azure_deployment

/-- Method `OllamaClient.create`: forwards credential and endpoint to the
`OpenAI` constructor. -/
def OllamaClient.create (c : OllamaClient) : Handle :=
  Handle.openAI c.api_key c.base_url none none

/-- Method `HuggingFaceClient.create`: forwards credential and endpoint to
the `OpenAI` constructor. -/
def HuggingFaceClient.create (c : HuggingFaceClient) : Handle :=
  Handle.openAI c.api_key c.base_url none none

/-- Resolver type stored in the registry: the four built-in classes, plus
`customT id` standing for any dynamically registered class. -/
inductive ClientType where
  | openaiT
  | azureT
  | ollamaT
  | huggingfaceT
  | customT (id : Nat)
deriving DecidableEq, Repr

/-- Registry `ClientFactory._clients`: an insertion-ordered mapping from
lowercase names to resolver types, as a Python `dict`. -/
def Registry : Type := List (String × ClientType)

/-- Python `dict.get`: the value at the first (unique) matching key. -/
def dictGet (k : String) : Registry → Option ClientType
  | [] => none
  | (k', v) :: rest => if k' = k then some v else dictGet k rest

/-- Python `dict[k] = v`: overwrites in place when the key exists (keeping
its insertion position), otherwise appends. -/
def dictInsert (k : String) (v : ClientType) : Registry → Registry
  | [] => [(k, v)]
  | (k', v') :: rest =>
      if k' = k then (k, v) :: rest else (k', v') :: dictInsert k v rest

/-- Python `dict.keys()`: the keys in insertion order. -/
def registryKeys (reg : Registry) : List String :=
  reg.map Prod.fst

/-- Initial registry contents of `ClientFactory._clients`. -/
def defaultRegistry : Registry :=
  [("openai", ClientType.openaiT), ("azure", ClientType.azureT),
   ("ollama", ClientType.ollamaT), ("huggingface", ClientType.huggingfaceT)]

/-- Body of `client_class(api_key, base_url).create()` for each resolver
type the registry can hold. A dynamically registered class is opaque, so
`customT` is modelled as constructing a handle that records its arguments. -/
def constructClient (t : ClientType) (env : Env) (api_key base_url : Option String) :
    Except String Handle :=
  match t with
  | ClientType.openaiT => (OpenAIClient.init env api_key base_url none none).map OpenAIClient.create
  | ClientType.azureT => Except.ok (AzureOpenAIClient.init env api_key base_url none none).create
  | ClientType.ollamaT => Except.ok (OllamaClient.init env api_key base_url).create
  | ClientType.huggingfaceT =>
      (HuggingFaceClient.init env api_key base_url).map HuggingFaceClient.create
  | ClientType.customT id => Except.ok (Handle.custom id api_key base_url)

/-- Method `ClientFactory.create_client(client_name, api_key, base_url)`:
looks up the lowercased name, raises `ValueError` listing the registered
names when absent, otherwise constructs the resolver and returns its
`create()` result. The registry state after the call is returned alongside
the result, so that its (absence of) mutation can be stated. -/
def ClientFactory.create_client (reg : Registry) (env : Env) (client_name : String)
    (api_key base_url : Option String) : Except String Handle × Registry :=
  match dictGet (pyLower client_name) reg with
  | none =>
      (Except.error ("Unknown client name: " ++ client_name ++ ". Valid options are "
        ++ String.intercalate ", " (registryKeys reg) ++ "."), reg)
  | some t => (constructClient t env api_key base_url, reg)

/-- Method `ClientFactory.register_client(name, client_class)`: stores the
class under the lowercased name. -/
def ClientFactory.register_client (reg : Registry) (name : String) (client_class : ClientType) :
    Registry :=
  dictInsert (pyLower name) client_class reg

/-- Environment with no variables set. -/
def env0 : Env := fun _ => none

/-- Environment supplying the primary-commercial credential and both
hosted-hub values. -/
def envFull : Env := fun v =>
  if v = "OPENAI_API_KEY" then some "k"
  else if v = "HF_API_TOKEN" then some "t"
  else if v = "HF_ENDPOINT_URL" then some "u"
  else none

/-- Environment whose enterprise-cloud credential variable is set to the
empty string. -/
def envAzureEmpty : Env := fun v =>
  if v = "AZURE_OPENAI_API_KEY" then some "" else none

theorem charToNat_ofNat (n : Nat) (h : n.isValidChar) : (Char.ofNat n).toNat = n := by
  simp [Char.ofNat, dif_pos h, Char.ofNatAux, Char.toNat, UInt32.toNat, BitVec.toNat_ofNatLt]

theorem charToLower_idem (c : Char) : c.toLower.toLower = c.toLower := by
  unfold Char.toLower
  by_cases h : c.toNat ≥ 65 ∧ c.toNat ≤ 90
  · rw [if_pos h]
    have hv : (c.toNat + 32).isValidChar := Or.inl (by omega)
    have ht : (Char.ofNat (c.toNat + 32)).toNat = c.toNat + 32 := charToNat_ofNat _ hv
    rw [ht, if_neg (by omega)]
  · rw [if_neg h, if_neg h]

theorem pyLower_idem (s : String) : pyLower (pyLower s) = pyLower s := by
  simp only [pyLower, List.map_map]
  congr 1
  exact List.map_congr_left fun c _ => charToLower_idem c

theorem pyTruthy_pyOr (a b : Option String) :
    pyTruthy (pyOr a b) = (pyTruthy a || pyTruthy b) := by
  unfold pyOr
  by_cases h : pyTruthy a = true
  · simp [h]
  · simp [h]

theorem pyTruthy_iff (a : Option String) :
    pyTruthy a = true ↔ ∃ s, a = some s ∧ s ≠ "" := by
  cases a <;> simp [pyTruthy]

theorem dictGet_dictInsert_self (k : String) (v : ClientType) (d : Registry) :
    dictGet k (dictInsert k v d) = some v := by
  induction d with
  | nil => simp [dictInsert, dictGet]
  | cons hd tl ih =>
      obtain ⟨k', v'⟩ := hd
      by_cases h : k' = k <;> simp [dictInsert, dictGet, h, ih]

/-- C1: for every name whose lowercased form is not a registry key,
`create_client` fails with an error whose message enumerates exactly the
currently registered variant names (in registry order), and no handle is
produced. -/
theorem create_client_unknown_name (reg : Registry) (env : Env) (name : String)
    (ak bu : Option String) (h : dictGet (pyLower name) reg = none) :
    (ClientFactory.create_client reg env name ak bu).1 =
      Except.error ("Unknown client name: " ++ name ++ ". Valid options are "
        ++ String.intercalate ", " (registryKeys reg) ++ ".") ∧
    ∀ hdl : Handle, (ClientFactory.create_client reg env name ak bu).1 ≠ Except.ok hdl := by
  unfold ClientFactory.create_client
  rw [h]
  exact ⟨rfl, fun hdl hc => by simp at hc⟩

theorem create_client_unknown_name_witness :
    (ClientFactory.create_client defaultRegistry env0 "Foo" none none).1 =
      Except.error "Unknown client name: Foo. Valid options are openai, azure, ollama, huggingface." := by
  have h := create_client_unknown_name defaultRegistry env0 "Foo" none none (by decide)
  exact h.1.trans (congrArg Except.error (by decide))

/-- C2: constructing the primary commercial resolver succeeds exactly when
the explicit credential or the `OPENAI_API_KEY` environment variable is a
non-empty string, and otherwise fails with the error naming that variable. -/
theorem openai_init_spec (env : Env) (ak bu org proj : Option String) :
    (OpenAIClient.init env ak bu org proj).isOk
        = (pyTruthy ak || pyTruthy (env "OPENAI_API_KEY")) ∧
    ((pyTruthy ak || pyTruthy (env "OPENAI_API_KEY")) = false →
      OpenAIClient.init env ak bu org proj =
        Except.error "API key must be set in the environment variable 'OPENAI_API_KEY'.") := by
  have hp := pyTruthy_pyOr ak (env "OPENAI_API_KEY")
  constructor
  · rw [← hp]
    unfold OpenAIClient.init
    by_cases h : pyTruthy (pyOr ak (env "OPENAI_API_KEY")) <;> simp [h, Except.isOk, Except.toBool]
  · intro hfail
    rw [← hp] at hfail
    unfold OpenAIClient.init
    simp [hfail]

theorem openai_init_spec_witness :
    (OpenAIClient.init envFull (some "k2") none none none).isOk
        = (pyTruthy (some "k2") || pyTruthy (envFull "OPENAI_API_KEY")) ∧
    OpenAIClient.init env0 none none none none =
      Except.error "API key must be set in the environment variable 'OPENAI_API_KEY'." :=
  ⟨(openai_init_spec envFull (some "k2") none none none).1,
   (openai_init_spec env0 none none none none).2 (by decide)⟩

/-- C3: constructing the hosted-hub resolver succeeds exactly when both the
credential (explicit or `HF_API_TOKEN`) and the endpoint (explicit or
`HF_ENDPOINT_URL`) are supplied as non-empty strings. -/
theorem huggingface_init_spec (env : Env) (ak bu : Option String) :
    (HuggingFaceClient.init env ak bu).isOk
      = ((pyTruthy ak || pyTruthy (env "HF_API_TOKEN"))
          && (pyTruthy bu || pyTruthy (env "HF_ENDPOINT_URL"))) := by
  unfold HuggingFaceClient.init
  rw [← pyTruthy_pyOr, ← pyTruthy_pyOr]
  by_cases h1 : pyTruthy (pyOr ak (env "HF_API_TOKEN")) <;>
    by_cases h2 : pyTruthy (pyOr bu (env "HF_ENDPOINT_URL")) <;>
      simp [h1, h2, Except.isOk, Except.toBool]

/-- C4: the local-server variant never fails through the factory, and when
no explicit credential is supplied its credential is the fixed placeholder
`"ollama"` for every environment. -/
theorem ollama_init_spec (env : Env) (ak bu : Option String) :
    (ClientFactory.create_client defaultRegistry env "ollama" ak bu).1
      = Except.ok (Handle.openAI (pyOr ak (some "ollama"))
          (pyOr bu (env "OLLAMA_ENDPOINT_URL")) none none) ∧
    (OllamaClient.init env none bu).api_key = some "ollama" := by
  have hd : dictGet (pyLower "ollama") defaultRegistry = some ClientType.ollamaT := by decide
  constructor
  · simp [ClientFactory.create_client, hd, constructClient, OllamaClient.init,
      OllamaClient.create]
  · rfl

/-- C5: the enterprise-cloud variant never fails through the factory, and
each of its four fields resolves to the explicit argument when truthy, else
to its environment variable (so to `none` when the variable is unset). -/
theorem azure_init_spec (env : Env) (ak bu av ad : Option String) :
    (ClientFactory.create_client defaultRegistry env "azure" ak bu).1.isOk = true ∧
    (AzureOpenAIClient.init env ak bu av ad).api_key
        = (if pyTruthy ak then ak else env "AZURE_OPENAI_API_KEY") ∧
    (AzureOpenAIClient.init env ak bu av ad).base_url
        = (if pyTruthy bu then bu else env "AZURE_OPENAI_ENDPOINT") ∧
    (AzureOpenAIClient.init env ak bu av ad).api_version
        = (if pyTruthy av then av else env "OPENAI_API_VERSION") ∧
    (AzureOpenAIClient.init env ak bu av ad).azure_deployment
        = (if pyTruthy ad then ad else env "AZURE_OPENAI_DEPLOYMENT_NAME") := by
  have hd : dictGet (pyLower "azure") defaultRegistry = some ClientType.azureT := by decide
  refine ⟨?_, rfl, rfl, rfl, rfl⟩
  simp [ClientFactory.create_client, hd, constructClient, Except.isOk, Except.toBool]

/-- C6 counterexample: `create_client "Foo"` and `create_client (lower
"Foo")` do not behave identically on an unregistered name — both fail, but
the error messages echo the name in its original casing, so the results
differ. -/
theorem create_client_case_counterexample :
    (ClientFactory.create_client defaultRegistry env0 "Foo" none none).1
        = Except.error "Unknown client name: Foo. Valid options are openai, azure, ollama, huggingface." ∧
    (ClientFactory.create_client defaultRegistry env0 (pyLower "Foo") none none).1
        = Except.error "Unknown client name: foo. Valid options are openai, azure, ollama, huggingface." ∧
    (ClientFactory.create_client defaultRegistry env0 "Foo" none none).1
        ≠ (ClientFactory.create_client defaultRegistry env0 (pyLower "Foo") none none).1 := by
  have h1 : (ClientFactory.create_client defaultRegistry env0 "Foo" none none).1
      = Except.error "Unknown client name: Foo. Valid options are openai, azure, ollama, huggingface." := rfl
  have h2 : (ClientFactory.create_client defaultRegistry env0 (pyLower "Foo") none none).1
      = Except.error "Unknown client name: foo. Valid options are openai, azure, ollama, huggingface." := rfl
  refine ⟨h1, h2, ?_⟩
  rw [h1, h2]
  intro hc
  exact absurd (Except.error.inj hc) (by decide)

/-- C6 (amended): name matching is case-insensitive in selection and
registration — `register_client` on a name and on its lowercased form
produce the same registry, lookup uses the lowercased key, and
`create_client` on a name returns the same result as on the lowercased
name whenever the name is registered, while on an unregistered name it
fails with the unknown-variant error listing the registered names but
echoing the original casing. -/
theorem create_client_case_insensitive (reg : Registry) (env : Env) (name : String)
    (ak bu : Option String) (T : ClientType) :
    ClientFactory.register_client reg name T
        = ClientFactory.register_client reg (pyLower name) T ∧
    dictGet (pyLower (pyLower name)) reg = dictGet (pyLower name) reg ∧
    (ClientFactory.create_client reg env name ak bu).1 =
      (match dictGet (pyLower name) reg with
       | some _ => (ClientFactory.create_client reg env (pyLower name) ak bu).1
       | none => Except.error ("Unknown client name: " ++ name ++ ". Valid options are "
            ++ String.intercalate ", " (registryKeys reg) ++ ".")) := by
  refine ⟨?_, ?_, ?_⟩
  · unfold ClientFactory.register_client
    rw [pyLower_idem]
  · rw [pyLower_idem]
  · unfold ClientFactory.create_client
    rw [pyLower_idem]
    cases h : dictGet (pyLower name) reg <;> simp [h]

/-- C7: registration stores the class under the lowercased name,
overwriting any previous entry; a later registration for the same name wins
again, and `create_client` under any casing of that name then constructs
via the most recently registered type. -/
theorem register_overwrites (reg : Registry) (name name2 : String) (T : ClientType)
    (env : Env) (ak bu : Option String) (h : pyLower name2 = pyLower name) :
    dictGet (pyLower name) (ClientFactory.register_client reg name T) = some T ∧
    (ClientFactory.create_client (ClientFactory.register_client reg name T) env name2 ak bu).1
        = constructClient T env ak bu ∧
    ∀ T2 : ClientType, dictGet (pyLower name)
        (ClientFactory.register_client (ClientFactory.register_client reg name T) name T2)
          = some T2 := by
  refine ⟨dictGet_dictInsert_self _ _ _, ?_, fun T2 => dictGet_dictInsert_self _ _ _⟩
  unfold ClientFactory.create_client ClientFactory.register_client
  rw [h, dictGet_dictInsert_self]

theorem register_overwrites_witness :
    dictGet (pyLower "OpenAI")
        (ClientFactory.register_client defaultRegistry "OpenAI" (ClientType.customT 0))
      = some (ClientType.customT 0) ∧
    (ClientFactory.create_client
        (ClientFactory.register_client defaultRegistry "OpenAI" (ClientType.customT 0))
        env0 "OPENAI" none none).1
      = constructClient (ClientType.customT 0) env0 none none ∧
    ∀ T2 : ClientType, dictGet (pyLower "OpenAI")
        (ClientFactory.register_client
          (ClientFactory.register_client defaultRegistry "OpenAI" (ClientType.customT 0))
          "OpenAI" T2)
      = some T2 :=
  register_overwrites defaultRegistry "OpenAI" "OPENAI" (ClientType.customT 0) env0
    none none (by decide)

/-- C8: whenever construction succeeds for a variant that mandates a field,
that field is a non-empty string (primary commercial: credential;
hosted-hub: credential and endpoint), and whenever construction fails the
factory returns the error without building a handle. -/
theorem validated_fields_nonempty (env : Env) (ak bu org proj : Option String) :
    (∀ r : OpenAIClient, OpenAIClient.init env ak bu org proj = Except.ok r →
        ∃ s, r.api_key = some s ∧ s ≠ "") ∧
    (∀ r : HuggingFaceClient, HuggingFaceClient.init env ak bu = Except.ok r →
        (∃ s, r.api_key = some s ∧ s ≠ "") ∧ ∃ s, r.base_url = some s ∧ s ≠ "") ∧
    (∀ e : String, OpenAIClient.init env ak bu none none = Except.error e →
        constructClient ClientType.openaiT env ak bu = Except.error e) ∧
    (∀ e : String, HuggingFaceClient.init env ak bu = Except.error e →
        constructClient ClientType.huggingfaceT env ak bu = Except.error e) := by
  refine ⟨?_, ?_, ?_, ?_⟩
  · intro r hr
    unfold OpenAIClient.init at hr
    by_cases h : pyTruthy (pyOr ak (env "OPENAI_API_KEY")) = true
    · simp only [h, if_true, Except.ok.injEq] at hr
      subst hr
      exact (pyTruthy_iff _).1 h
    · simp [h] at hr
  · intro r hr
    unfold HuggingFaceClient.init at hr
    by_cases h1 : pyTruthy (pyOr ak (env "HF_API_TOKEN")) = true
    · by_cases h2 : pyTruthy (pyOr bu (env "HF_ENDPOINT_URL")) = true
      · simp only [h1, h2, if_true, Except.ok.injEq] at hr
        subst hr
        exact ⟨(pyTruthy_iff _).1 h1, (pyTruthy_iff _).1 h2⟩
      · simp [h1, h2] at hr
    · simp [h1] at hr
  · intro e he
    simp [constructClient, he, Except.map]
  · intro e he
    simp [constructClient, he, Except.map]

theorem validated_fields_nonempty_witness :
    (∃ s, (OpenAIClient.mk (some "k") (some "https://api.openai.com/v1") none none).api_key
        = some s ∧ s ≠ "") ∧
    (∃ s, (HuggingFaceClient.mk (some "t") (some "u")).api_key = some s ∧ s ≠ "") ∧
    ∃ s, (HuggingFaceClient.mk (some "t") (some "u")).base_url = some s ∧ s ≠ "" :=
  ⟨(validated_fields_nonempty envFull none none none none).1 _ rfl,
   ((validated_fields_nonempty envFull none none none none).2.1 _ rfl).1,
   ((validated_fields_nonempty envFull none none none none).2.1 _ rfl).2⟩

/-- C9: `create_client` leaves the registry unchanged, whether it returns a
handle or fails; only `register_client` writes the registry. -/
theorem create_client_preserves_registry (reg : Registry) (env : Env) (name : String)
    (ak bu : Option String) :
    (ClientFactory.create_client reg env name ak bu).2 = reg := by
  unfold ClientFactory.create_client
  cases dictGet (pyLower name) reg <;> rfl

/-- C10 counterexample: an empty string can be stored as a resolved field
value — with `AZURE_OPENAI_API_KEY` set to the empty string, the
enterprise-cloud resolver stores `""` as its credential even though the
explicit argument was the (falsy) empty string. -/
theorem empty_string_stored_counterexample :
    (AzureOpenAIClient.init envAzureEmpty (some "") none none none).api_key = some "" := rfl

/-- C10 (amended): for every variant, passing an explicit empty string as
the credential or endpoint argument behaves exactly as passing no argument
at all — the environment-variable or fixed-default fallback is consulted —
though the field stored from the fallback may itself be the empty string
when the environment variable is set to one. -/
theorem empty_arg_like_omitted (env : Env) (ak bu org proj av ad : Option String) :
    OpenAIClient.init env (some "") bu org proj = OpenAIClient.init env none bu org proj ∧
    OpenAIClient.init env ak (some "") org proj = OpenAIClient.init env ak none org proj ∧
    AzureOpenAIClient.init env (some "") bu av ad = AzureOpenAIClient.init env none bu av ad ∧
    AzureOpenAIClient.init env ak (some "") av ad = AzureOpenAIClient.init env ak none av ad ∧
    OllamaClient.init env (some "") bu = OllamaClient.init env none bu ∧
    OllamaClient.init env ak (some "") = OllamaClient.init env ak none ∧
    HuggingFaceClient.init env (some "") bu = HuggingFaceClient.init env none bu ∧
    HuggingFaceClient.init env ak (some "") = HuggingFaceClient.init env ak none :=
  ⟨rfl, rfl, rfl, rfl, rfl, rfl, rfl, rfl⟩

end Swarm
